import Mathlib

/-!
Verification development for the agent/streaming subsystem of the
test-langgraph-ai-agent backend.

The Lean definitions below are a shallow embedding of three Python modules:

  * `app/agents/thinking_tracker.py`  (ThinkingTracker)
  * `app/agents/base_agent.py`        (BaseAgent conversation graph)
  * `app/services/stream_service.py`  (StreamService, SSE fan-out)

Modelling conventions:

  * Python dicts keyed by strings become association lists
    `List (String × α)` with first-match lookup (`dictGet`),
    replace-first-or-append update (`dictSet`, the semantics of
    `d[k] = v`) and remove-all erasure (`dictErase`, the semantics of
    `d.pop(k, None)`).
  * Nondeterministic external calls (the LLM, tool HTTP calls) are
    oracle parameters of type `Except`; an `Except.error` models the
    call raising, which the Python code catches per node or per call.
  * Python float confidence scores are modelled as rationals; the code
    only ever compares and stores the literal values 0.0 .. 0.95.
  * Wall-clock datetimes are modelled as integer timestamps (seconds);
    `datetime.a - datetime.b).total_seconds()` becomes integer
    subtraction, and `isoformat` becomes an abstract injective
    rendering to `String`.
  * Database rows live in an in-memory list in insertion order; the
    ORM query `filter(...).order_by(step_number)` becomes
    `List.filter` followed by an insertion sort on `step_number`, and
    `count()` becomes `List.length` of the filtered list.
  * DB-generated uuid ids, created_at stamps and the duration field of
    rows are not modelled; no claim mentions them.
-/

/-! ## Association-list dictionaries -/

/-- First-match lookup, the semantics of `d.get(k)` on a Python dict. -/
def dictGet {α : Type} : List (String × α) → String → Option α
  | [], _ => none
  | (k2, v) :: rest, k => if k2 = k then some v else dictGet rest k

/-- Lookup with a default, the semantics of `d.get(k, dflt)`. -/
def dictGetD {α : Type} (l : List (String × α)) (k : String) (dflt : α) : α :=
  (dictGet l k).getD dflt

/-- Replace the first binding of `k`, or append one: `d[k] = v`. -/
def dictSet {α : Type} : List (String × α) → String → α → List (String × α)
  | [], k, v => [(k, v)]
  | (k2, v2) :: rest, k, v =>
    if k2 = k then (k, v) :: rest else (k2, v2) :: dictSet rest k v

/-- Remove every binding of `k`: `d.pop(k, None)`. -/
def dictErase {α : Type} : List (String × α) → String → List (String × α)
  | [], _ => []
  | (k2, v) :: rest, k =>
    if k2 = k then dictErase rest k else (k2, v) :: dictErase rest k

/-! ## Thinking tracker data model (`app/models/thinking_step.py`) -/

/-- The `ThinkingPhase` string enum. -/
inductive ThinkingPhase where
  | analysis
  | planning
  | execution
  | reflection
  | tool_selection
  | response_generation
deriving Repr, DecidableEq

/-- The `ThinkingStepType` string enum. -/
inductive ThinkingStepType where
  | observation
  | analysis
  | hypothesis
  | decision
  | action_plan
  | tool_call
  | evaluation
  | conclusion
deriving Repr, DecidableEq

/-- The in-memory `ThinkingStepData` dataclass. `tool_input` holds the
JSON rendering of the tool-argument dict; its content is never
inspected by the tracker. -/
structure ThinkingStepData where
  title : String
  content : String
  phase : ThinkingPhase
  step_type : ThinkingStepType
  reasoning : Option String := none
  tool_name : Option String := none
  tool_input : Option String := none
  tool_output : Option String := none
  confidence : Option ℚ := none
  importance : Option ℚ := none
  metadata : List (String × String) := []
deriving Repr, DecidableEq

/-- A persisted `ThinkingStep` ORM row (the fields `_flush_steps`
writes; uuid id, timestamps and duration are not modelled). -/
structure ThinkingStepRow where
  session_id : String
  step_number : Nat
  phase : ThinkingPhase
  step_type : ThinkingStepType
  title : String
  content : String
  reasoning : Option String
  tool_name : Option String
  tool_input : Option String
  tool_output : Option String
  confidence : Option ℚ
  importance : Option ℚ
  metadata : List (String × String)
deriving Repr, DecidableEq

/-- The dict `get_session_steps` returns per step. `from_buffer` models
the presence of the `"from_buffer": True` key (absent, hence false, for
rows read from the database). -/
structure ThinkingStepView where
  step_number : Nat
  phase : ThinkingPhase
  step_type : ThinkingStepType
  title : String
  content : String
  reasoning : Option String
  tool_name : Option String
  tool_input : Option String
  tool_output : Option String
  confidence : Option ℚ
  importance : Option ℚ
  is_successful : Bool
  from_buffer : Bool
deriving Repr, DecidableEq

/-- The `ThinkingTracker` singleton state plus the `thinking_steps`
table it writes to. `active_sessions` keeps only the keys of
`_active_sessions` (the `ThinkingContext` values are never read by the
operations modelled here); `db_steps` is the table in insertion
order. -/
structure ThinkingTracker where
  active_sessions : List String := []
  step_buffers : List (String × List ThinkingStepData) := []
  db_steps : List ThinkingStepRow := []
deriving Repr, DecidableEq

/-- Rows with the given `session_id`, in insertion order: the filter of
the queries in `_flush_steps` (count) and `get_session_steps`. -/
def db_for (t : ThinkingTracker) (session_id : String) : List ThinkingStepRow :=
  t.db_steps.filter (fun r => r.session_id == session_id)

/-- The row `_flush_steps` inserts for one buffered step. -/
def row_of_data (session_id : String) (n : Nat) (d : ThinkingStepData) : ThinkingStepRow :=
  { session_id := session_id
    step_number := n
    phase := d.phase
    step_type := d.step_type
    title := d.title
    content := d.content
    reasoning := d.reasoning
    tool_name := d.tool_name
    tool_input := d.tool_input
    tool_output := d.tool_output
    confidence := d.confidence
    importance := d.importance
    metadata := d.metadata }

/-- `ThinkingTracker._flush_steps`: no-op on a missing or empty buffer;
otherwise numbers the buffered steps `current_count + i + 1` from the
persisted count for that session, appends the rows, and empties the
buffer. -/
def _flush_steps (t : ThinkingTracker) (session_id : String) : ThinkingTracker :=
  let buf := dictGetD t.step_buffers session_id []
  if buf = [] then t
  else
    let current_count := (db_for t session_id).length
    let new_rows := buf.enum.map (fun p => row_of_data session_id (current_count + p.1 + 1) p.2)
    { t with db_steps := t.db_steps ++ new_rows
             step_buffers := dictSet t.step_buffers session_id [] }

/-- `ThinkingTracker.add_thinking_step`: a silent no-op when no active
session is registered for the id (the Python logs a warning and
returns); otherwise appends to the buffer and optionally flushes. -/
def add_thinking_step (t : ThinkingTracker) (session_id : String)
    (d : ThinkingStepData) (auto_flush : Bool) : ThinkingTracker :=
  if session_id ∈ t.active_sessions then
    let t2 := { t with
      step_buffers := dictSet t.step_buffers session_id
        (dictGetD t.step_buffers session_id [] ++ [d]) }
    if auto_flush then _flush_steps t2 session_id else t2
  else t

/-- `ThinkingTracker.add_observation`. -/
def add_observation (t : ThinkingTracker) (session_id title content : String)
    (confidence : Option ℚ) (metadata : List (String × String)) : ThinkingTracker :=
  add_thinking_step t session_id
    { title := title, content := content, phase := ThinkingPhase.analysis
      step_type := ThinkingStepType.observation, confidence := confidence
      metadata := metadata } false

/-- `ThinkingTracker.add_analysis`. -/
def add_analysis (t : ThinkingTracker) (session_id title content : String)
    (reasoning : Option String) (confidence : Option ℚ)
    (metadata : List (String × String)) : ThinkingTracker :=
  add_thinking_step t session_id
    { title := title, content := content, phase := ThinkingPhase.analysis
      step_type := ThinkingStepType.analysis, reasoning := reasoning
      confidence := confidence, metadata := metadata } false

/-- `ThinkingTracker.add_decision`. -/
def add_decision (t : ThinkingTracker) (session_id title content : String)
    (reasoning : Option String) (confidence : Option ℚ) (importance : Option ℚ)
    (metadata : List (String × String)) : ThinkingTracker :=
  add_thinking_step t session_id
    { title := title, content := content, phase := ThinkingPhase.planning
      step_type := ThinkingStepType.decision, reasoning := reasoning
      confidence := confidence, importance := importance, metadata := metadata } false

/-- `ThinkingTracker.add_tool_call`; `tool_input` is the JSON rendering
of the argument dict, as interpolated into the content string by the
Python f-string. -/
def add_tool_call (t : ThinkingTracker) (session_id tool_name tool_input : String)
    (tool_output : Option String) (reasoning : Option String) (confidence : Option ℚ)
    (metadata : List (String × String)) : ThinkingTracker :=
  add_thinking_step t session_id
    { title := "调用工具: " ++ tool_name
      content := "使用工具 " ++ tool_name ++ " 处理: " ++ tool_input
      phase := ThinkingPhase.execution
      step_type := ThinkingStepType.tool_call, reasoning := reasoning
      tool_name := some tool_name, tool_input := some tool_input
      tool_output := tool_output, confidence := confidence
      metadata := metadata } false

/-- `ThinkingTracker.add_conclusion`. -/
def add_conclusion (t : ThinkingTracker) (session_id title content : String)
    (reasoning : Option String) (confidence : Option ℚ)
    (metadata : List (String × String)) : ThinkingTracker :=
  add_thinking_step t session_id
    { title := title, content := content
      phase := ThinkingPhase.response_generation
      step_type := ThinkingStepType.conclusion, reasoning := reasoning
      confidence := confidence, metadata := metadata } false

/-- Insert one row into a list kept ascending by `step_number`. -/
def insert_by_step_number (r : ThinkingStepRow) : List ThinkingStepRow → List ThinkingStepRow
  | [] => [r]
  | x :: xs =>
    if r.step_number < x.step_number then r :: x :: xs
    else x :: insert_by_step_number r xs

/-- The `order_by(ThinkingStep.step_number)` of the session-steps query,
as an insertion sort. -/
def sort_by_step_number (l : List ThinkingStepRow) : List ThinkingStepRow :=
  l.foldr insert_by_step_number []

/-- The dict built for one persisted row by `get_session_steps`. -/
def view_of_row (r : ThinkingStepRow) : ThinkingStepView :=
  { step_number := r.step_number, phase := r.phase, step_type := r.step_type
    title := r.title, content := r.content, reasoning := r.reasoning
    tool_name := r.tool_name, tool_input := r.tool_input
    tool_output := r.tool_output, confidence := r.confidence
    importance := r.importance, is_successful := true, from_buffer := false }

/-- The dict built for one still-buffered step by `get_session_steps`
(provisional number `n`, tagged `from_buffer`). -/
def view_of_buffer (n : Nat) (d : ThinkingStepData) : ThinkingStepView :=
  { step_number := n, phase := d.phase, step_type := d.step_type
    title := d.title, content := d.content, reasoning := d.reasoning
    tool_name := d.tool_name, tool_input := d.tool_input
    tool_output := d.tool_output, confidence := d.confidence
    importance := d.importance, is_successful := true, from_buffer := true }

/-- `ThinkingTracker.get_session_steps`: the persisted rows of the
session ordered by `step_number`, followed (when `include_buffer` holds
and the buffer key exists) by the buffered steps numbered from
`len(step_list) + 1`. -/
def get_session_steps (t : ThinkingTracker) (session_id : String)
    (include_buffer : Bool) : List ThinkingStepView :=
  let step_list := (sort_by_step_number (db_for t session_id)).map view_of_row
  if include_buffer && (dictGet t.step_buffers session_id).isSome then
    let buffer_steps := dictGetD t.step_buffers session_id []
    let start_number := step_list.length + 1
    step_list ++ buffer_steps.enum.map (fun p => view_of_buffer (start_number + p.1) p.2)
  else step_list

/-! ## Conversation graph (`app/agents/base_agent.py`) -/

/-- A pending tool-call descriptor as stored in `AgentState.tool_calls`
(`id`, `name`, `args`); `args` holds the JSON rendering of the
argument dict, which the orchestrator only passes along. -/
structure ToolCall where
  id : String
  name : String
  args : String
deriving Repr, DecidableEq

/-- A LangChain message: `HumanMessage`, `SystemMessage`, `AIMessage`
(carrying its tool-call requests) or `ToolMessage` (carrying its
`tool_call_id`). -/
inductive Msg where
  | human (content : String)
  | system (content : String)
  | ai (content : String) (tool_calls : List ToolCall)
  | tool (content : String) (tool_call_id : String)
deriving Repr, DecidableEq

/-- The `AgentState` pydantic model (the fields the graph logic reads
or writes; `context` is only interpolated into prompts and is
omitted). -/
structure AgentState where
  messages : List Msg := []
  tool_calls : List ToolCall := []
  error_count : Nat := 0
  max_errors : Nat := 3
  thinking_process : List String := []
  user_id : Option String := none
  session_id : Option String := none
  enable_thinking_tracking : Bool := true
  current_thinking_phase : Option String := none
deriving Repr, DecidableEq

/-- Python truthiness of an optional string (`None` and the empty
string are falsy). -/
def optTruthy : Option String → Bool
  | none => false
  | some s => s ≠ ""

/-- The guard `state.enable_thinking_tracking and state.user_id and
state.session_id` that every tracker call in the graph nodes sits
behind. -/
def trackingOn (s : AgentState) : Bool :=
  s.enable_thinking_tracking && optTruthy s.user_id && optTruthy s.session_id

/-- `BaseAgent._should_continue_thinking`. -/
def _should_continue_thinking (state : AgentState) : String :=
  if state.error_count > 0 then "error" else "act"

/-- `BaseAgent._should_use_tools`; `state.tool_calls` is truthy exactly
when the pending tool-call list is non-empty. -/
def _should_use_tools (state : AgentState) : String :=
  if state.error_count > 0 then "error"
  else if state.tool_calls ≠ [] then "use_tools"
  else "respond"

/-- `BaseAgent._think_node`. The LLM call is the oracle `llm`
(`Except.error` models the call raising, caught by the node, which
then increments `error_count`); the tracker calls inside the node
mutate only the tracker and never raise, so they do not appear in the
state transition. -/
def _think_node (llm : Except Unit String) (state : AgentState) : AgentState :=
  let state := { state with current_thinking_phase := some "analysis" }
  match llm with
  | Except.ok thinking_content =>
    { state with thinking_process := state.thinking_process ++ [thinking_content] }
  | Except.error _ => { state with error_count := state.error_count + 1 }

/-- `BaseAgent._act_node`. On success the oracle yields the assistant
message content and its tool-call requests; the node appends the
message and extends `tool_calls` (extending by `[]` when the response
carries none, which the Python skips but which is the identity). -/
def _act_node (llm : Except Unit (String × List ToolCall)) (state : AgentState) : AgentState :=
  let state := { state with current_thinking_phase := some "planning" }
  match llm with
  | Except.ok (content, tcs) =>
    { state with messages := state.messages ++ [Msg.ai content tcs]
                 tool_calls := state.tool_calls ++ tcs }
  | Except.error _ => { state with error_count := state.error_count + 1 }

/-- One `add_tool_call` record the use-tools node sends to the thinking
tracker. -/
structure TrackCall where
  tool_name : String
  tool_input : String
  tool_output : Option String
  reasoning : Option String
  confidence : Option ℚ
deriving Repr, DecidableEq

/-- The body of the per-tool-call loop in `_use_tools_node`: the
tool-result message appended for this call and the tracker records
emitted (subject to the tracking guard). Tool lookup is the linear
scan `next((t for t in self.tools if t.name == tool_name), None)`;
`tool_run` models `tool.ainvoke`, with `Except.error` the per-call
exception caught inside the loop. -/
def process_tool_call (tools : List String) (tool_run : String → String → Except String String)
    (tracking : Bool) (tc : ToolCall) : Msg × List TrackCall :=
  let preRecord : List TrackCall :=
    if tracking then
      [{ tool_name := tc.name, tool_input := tc.args, tool_output := none
         reasoning := some ("开始执行工具 " ++ tc.name), confidence := some 0.9 }]
    else []
  if tc.name ∈ tools then
    match tool_run tc.name tc.args with
    | Except.ok result =>
      let shown := if result.length > 500 then result.take 500 ++ "..." else result
      (Msg.tool result tc.id,
       preRecord ++ (if tracking then
         [{ tool_name := tc.name, tool_input := tc.args, tool_output := some shown
            reasoning := some ("工具 " ++ tc.name ++ " 执行成功"), confidence := some 0.95 }]
         else []))
    | Except.error e =>
      let error_msg := "Error executing tool \x27" ++ tc.name ++ "\x27: " ++ e
      (Msg.tool error_msg tc.id,
       preRecord ++ (if tracking then
         [{ tool_name := tc.name, tool_input := tc.args, tool_output := some error_msg
            reasoning := some ("工具 " ++ tc.name ++ " 执行失败：" ++ e), confidence := some 0.0 }]
         else []))
  else
    let error_msg := "Tool \x27" ++ tc.name ++ "\x27 not found"
    (Msg.tool error_msg tc.id,
     preRecord ++ (if tracking then
       [{ tool_name := tc.name, tool_input := tc.args, tool_output := some error_msg
          reasoning := some ("工具 " ++ tc.name ++ " 未找到"), confidence := some 0.0 }]
       else []))

/-- `BaseAgent._use_tools_node`: early return on an empty pending list,
otherwise one tool-result message per pending call, then the pending
list is cleared unconditionally. The second component collects the
`add_tool_call` records sent to the tracker. The only operations
awaited inside the loop are `tool.ainvoke` (modelled by `tool_run` and
caught per call) and tracker calls (which swallow their own
exceptions), so the node-level `except` branch has no modelled
trigger and the node never raises. -/
def _use_tools_node (tools : List String) (tool_run : String → String → Except String String)
    (state : AgentState) : AgentState × List TrackCall :=
  let state := { state with current_thinking_phase := some "execution" }
  if state.tool_calls = [] then (state, [])
  else
    let processed := state.tool_calls.map (process_tool_call tools tool_run (trackingOn state))
    ({ state with messages := state.messages ++ processed.map Prod.fst
                  tool_calls := [] },
     (processed.map Prod.snd).flatten)

/-- `BaseAgent._respond_node`: when the most recent message is a tool
result, one more LLM call (the oracle) summarizes it, and an exception
there increments `error_count`; otherwise the node only records a
conclusion step on the tracker and leaves the state unchanged (apart
from the phase tag). -/
def _respond_node (llm : Except Unit String) (state : AgentState) : AgentState :=
  let state := { state with current_thinking_phase := some "response_generation" }
  match state.messages.getLast? with
  | some (Msg.tool _ _) =>
    match llm with
    | Except.ok content => { state with messages := state.messages ++ [Msg.ai content []] }
    | Except.error _ => { state with error_count := state.error_count + 1 }
  | _ => state

/-- `BaseAgent._error_handler_node`: appends the fixed apology, harsher
once `error_count` reaches `max_errors`. -/
def _error_handler_node (state : AgentState) : AgentState :=
  let error_msg :=
    if state.error_count ≥ state.max_errors then
      "I\x27m experiencing technical difficulties. Please contact support if this persists."
    else "I encountered an error while processing your request. Please try again."
  { state with messages := state.messages ++ [Msg.ai error_msg []] }

/-- The graph node at which a turn terminates. -/
inductive GraphNode where
  | respond
  | error_handler
deriving Repr, DecidableEq

/-- The oracle for the external calls one turn makes: the think-node
LLM call, the act-node LLM call (content and tool-call requests), the
respond-node summarization call, and the registered tool names with
their execution outcomes. -/
structure TurnOracle where
  think_llm : Except Unit String
  act_llm : Except Unit (String × List ToolCall)
  respond_llm : Except Unit String
  tools : List String
  tool_run : String → String → Except String String

/-- One execution of the compiled workflow of `_build_workflow`:
`START → think`, then `_should_continue_thinking` routes to `act` or
`error_handler`; after `act`, `_should_use_tools` routes to
`use_tools`, `respond` or `error_handler`; `use_tools → respond`; and
`respond` and `error_handler` are terminal. Returns the final state
and the terminal node. -/
def run_turn (o : TurnOracle) (s0 : AgentState) : AgentState × GraphNode :=
  let s1 := _think_node o.think_llm s0
  if _should_continue_thinking s1 = "error" then
    (_error_handler_node s1, GraphNode.error_handler)
  else
    let s2 := _act_node o.act_llm s1
    if _should_use_tools s2 = "error" then
      (_error_handler_node s2, GraphNode.error_handler)
    else if _should_use_tools s2 = "use_tools" then
      let s3 := (_use_tools_node o.tools o.tool_run s2).1
      (_respond_node o.respond_llm s3, GraphNode.respond)
    else
      (_respond_node o.respond_llm s2, GraphNode.respond)

/-- The initial state `process_message` builds for a turn:
one human message, `error_count = 0`, `max_errors = 3` (the pydantic
defaults), an empty pending tool-call list. -/
def initial_agent_state (message user_id session_id : String)
    (enable_tracking : Bool) : AgentState :=
  { messages := [Msg.human message]
    user_id := some user_id
    session_id := some session_id
    enable_thinking_tracking := enable_tracking }

/-! ## Stream service (`app/services/stream_service.py`) -/

/-- The `StreamEventType` string enum. -/
inductive StreamEventType where
  | message
  | thinking
  | tool_call
  | tool_response
  | error
  | heartbeat
  | connection_status
  | stream_start
  | stream_end
  | chunk
deriving Repr, DecidableEq

/-- The `.value` of a `StreamEventType` member. -/
def StreamEventType.value : StreamEventType → String
  | .message => "message"
  | .thinking => "thinking"
  | .tool_call => "tool_call"
  | .tool_response => "tool_response"
  | .error => "error"
  | .heartbeat => "heartbeat"
  | .connection_status => "connection_status"
  | .stream_start => "stream_start"
  | .stream_end => "stream_end"
  | .chunk => "chunk"

/-- The `ConnectionStatus` string enum. -/
inductive ConnectionStatus where
  | connecting
  | connected
  | reconnecting
  | disconnected
  | error
deriving Repr, DecidableEq

/-- A JSON value as it appears in a stream-message `data` dict. -/
inductive JsonVal where
  | null
  | str (s : String)
  | num (n : Int)
  | jbool (b : Bool)
deriving Repr, DecidableEq

/-- Abstract rendering of `datetime.isoformat()`; timestamps are
modelled as integer seconds. -/
def isoformat (t : Int) : String := toString t

/-- The `StreamMessage` dataclass. -/
structure StreamMessage where
  event_type : StreamEventType
  data : List (String × JsonVal)
  id : Option String := none
  retry : Option Int := none
  timestamp : Int := 0
  sequence : Option Nat := none
deriving Repr, DecidableEq

/-- The JSON value serialized for the `sequence` key (`None` becomes
`null`). -/
def sequenceJson : Option Nat → JsonVal
  | some n => JsonVal.num (Int.ofNat n)
  | none => JsonVal.null

/-- The dict `{**self.data, "timestamp": ..., "sequence": ...}` that
`to_sse_format` serializes. -/
def sse_data_dict (m : StreamMessage) : List (String × JsonVal) :=
  dictSet (dictSet m.data "timestamp" (JsonVal.str (isoformat m.timestamp)))
    "sequence" (sequenceJson m.sequence)

/-- One line appended to `lines` by `to_sse_format`, kept structured
(the data line keeps the dict it serializes). -/
inductive SseLine where
  | idLine (i : String)
  | retryLine (r : Int)
  | eventLine (e : String)
  | dataLine (d : List (String × JsonVal))
deriving Repr, DecidableEq

/-- The `lines` list `to_sse_format` builds: the id line only when
`self.id` is truthy (set and non-empty), the retry line only when
`self.retry` is truthy (set and nonzero), then always the event line
and the data line. -/
def to_sse_lines (m : StreamMessage) : List SseLine :=
  (match m.id with
   | some i => if i ≠ "" then [SseLine.idLine i] else []
   | none => []) ++
  (match m.retry with
   | some r => if r ≠ 0 then [SseLine.retryLine r] else []
   | none => []) ++
  [SseLine.eventLine m.event_type.value, SseLine.dataLine (sse_data_dict m)]

/-- Serialization of one JSON value, `json.dumps` with
`ensure_ascii=False` (string escaping is not modelled; no serialized
key or value in this codebase needs it). -/
def json_dumps_val : JsonVal → String
  | JsonVal.null => "null"
  | JsonVal.str s => "\"" ++ s ++ "\""
  | JsonVal.num n => toString n
  | JsonVal.jbool b => if b then "true" else "false"

/-- Serialization of a JSON object with the default separators of
`json.dumps`. -/
def json_dumps_obj (d : List (String × JsonVal)) : String :=
  "\x7b" ++
    String.intercalate ", "
      (d.map (fun p => "\"" ++ p.1 ++ "\": " ++ json_dumps_val p.2)) ++
  "\x7d"

/-- Textual rendering of one SSE line. -/
def SseLine.render : SseLine → String
  | SseLine.idLine i => "id: " ++ i
  | SseLine.retryLine r => "retry: " ++ toString r
  | SseLine.eventLine e => "event: " ++ e
  | SseLine.dataLine d => "data: " ++ json_dumps_obj d

/-- `StreamMessage.to_sse_format`:
`"\n".join(lines) + "\n\n"` (the trailing blank line). -/
def to_sse_format (m : StreamMessage) : String :=
  String.intercalate "\n" ((to_sse_lines m).map SseLine.render) ++ "\n\n"

/-- The `StreamConnection` dataclass (metadata omitted; it is never
read by the service logic). -/
structure StreamConnection where
  connection_id : String
  user_id : String
  session_id : Option String := none
  status : ConnectionStatus := ConnectionStatus.connecting
  created_at : Int := 0
  last_heartbeat : Int := 0
  sequence_number : Nat := 0
deriving Repr, DecidableEq

/-- `StreamConnection.next_sequence`: increments the counter and
returns the new value together with the updated connection. -/
def StreamConnection.next_sequence (c : StreamConnection) : Nat × StreamConnection :=
  (c.sequence_number + 1, { c with sequence_number := c.sequence_number + 1 })

/-- The `StreamService` state: the connection registry, the
per-connection queues (FIFO lists, head = oldest), and the configured
parameters (`__init__` sets 30 / 300 / 1000 / 1000). -/
structure StreamService where
  connections : List (String × StreamConnection) := []
  connection_queues : List (String × List StreamMessage) := []
  heartbeat_interval : Int := 30
  connection_timeout : Int := 300
  max_queue_size : Nat := 1000
  retry_interval : Nat := 1000
deriving Repr, DecidableEq

/-- Which branch of `send_message` produced the boolean result (the
Python returns `True` only for `enqueued`). -/
inductive SendResult where
  | no_connection
  | no_queue
  | enqueued
  | queue_full
deriving Repr, DecidableEq

/-- The synthesized queue-full error notification of `send_message`
(fresh timestamp, no id, no retry, and no sequence number is assigned
to it). -/
def queue_full_error_message (connection_id : String) (now : Int) : StreamMessage :=
  { event_type := StreamEventType.error
    data := [("error", JsonVal.str "队列满"),
             ("message", JsonVal.str "消息队列已满，部分消息可能丢失"),
             ("connection_id", JsonVal.str connection_id)]
    timestamp := now }

/-- `StreamService.send_message`: missing connection or missing queue
returns `False` without touching anything; otherwise the next sequence
number is assigned (consumed even when the enqueue then fails) and a
non-blocking enqueue is attempted; `put_nowait` on a full queue
(`len ≥ maxsize`) raises `QueueFull`, whereupon one pending message is
removed from the front to make room for the synthesized queue-full
error message (on an empty full queue the inner `QueueEmpty` is
swallowed and nothing is enqueued). `now` stamps the synthesized error
message. -/
def send_message (svc : StreamService) (connection_id : String) (m : StreamMessage)
    (now : Int) : StreamService × SendResult :=
  match dictGet svc.connections connection_id with
  | none => (svc, SendResult.no_connection)
  | some connection =>
    match dictGet svc.connection_queues connection_id with
    | none => (svc, SendResult.no_queue)
    | some queue =>
      let (seq, connection2) := connection.next_sequence
      let m2 := { m with sequence := some seq }
      let svc2 := { svc with connections := dictSet svc.connections connection_id connection2 }
      if queue.length < svc.max_queue_size then
        let q2 := dictSet svc2.connection_queues connection_id (queue ++ [m2])
        ({ svc2 with connection_queues := q2 }, SendResult.enqueued)
      else
        match queue with
        | [] => (svc2, SendResult.queue_full)
        | _ :: rest =>
          let q2 := dictSet svc2.connection_queues connection_id
            (rest ++ [queue_full_error_message connection_id now])
          ({ svc2 with connection_queues := q2 }, SendResult.queue_full)

/-- `StreamService.disconnect`: a no-op on an unknown connection id;
otherwise sends the disconnected status message (best effort), then
pops the connection and its queue (draining the popped queue has no
further effect on the service state). -/
def StreamService.disconnect (svc : StreamService) (connection_id : String)
    (now : Int) : StreamService :=
  if (dictGet svc.connections connection_id).isSome then
    let m : StreamMessage :=
      { event_type := StreamEventType.connection_status
        data := [("status", JsonVal.str "disconnected"),
                 ("connection_id", JsonVal.str connection_id),
                 ("message", JsonVal.str "连接已断开")]
        timestamp := now }
    let svc2 := (send_message svc connection_id m now).1
    { svc2 with connections := dictErase svc2.connections connection_id
                connection_queues := dictErase svc2.connection_queues connection_id }
  else svc

/-- `StreamService.create_connection`: registers a fresh connection
(status `connecting`, zero sequence counter, heartbeat now) and an
empty queue under the same id, sends the connected status message, and
marks the connection connected. The uuid the Python generates is the
`connection_id` parameter. -/
def create_connection (svc : StreamService) (connection_id user_id : String)
    (session_id : Option String) (now : Int) : StreamService :=
  let connection : StreamConnection :=
    { connection_id := connection_id, user_id := user_id, session_id := session_id
      status := ConnectionStatus.connecting, created_at := now
      last_heartbeat := now, sequence_number := 0 }
  let svc1 := { svc with
    connections := dictSet svc.connections connection_id connection
    connection_queues := dictSet svc.connection_queues connection_id [] }
  let m : StreamMessage :=
    { event_type := StreamEventType.connection_status
      data := [("status", JsonVal.str "connected"),
               ("connection_id", JsonVal.str connection_id),
               ("message", JsonVal.str "连接建立成功")]
      id := some connection_id
      timestamp := now }
  let svc2 := (send_message svc1 connection_id m now).1
  match dictGet svc2.connections connection_id with
  | some c =>
    let conns := dictSet svc2.connections connection_id { c with status := ConnectionStatus.connected }
    { svc2 with connections := conns }
  | none => svc2

/-- One iteration of the `get_event_stream` read loop in which a
message is available on the queue before the heartbeat timeout: the
message is dequeued and the last-heartbeat timestamp of the connection
is reset to the current time. Any other situation (unknown connection,
empty queue) leaves the state unchanged and yields nothing here. -/
def stream_receive (svc : StreamService) (connection_id : String)
    (now : Int) : StreamService × Option StreamMessage :=
  match dictGet svc.connections connection_id, dictGet svc.connection_queues connection_id with
  | some connection, some (m :: rest) =>
    ({ svc with
        connections := dictSet svc.connections connection_id
          { connection with last_heartbeat := now }
        connection_queues := dictSet svc.connection_queues connection_id rest },
     some m)
  | _, _ => (svc, none)

/-- One pass of the `_heartbeat_loop` body: iterate over a snapshot of
the connection registry and force-disconnect every connection whose
last heartbeat is more than `connection_timeout` seconds old. -/
def sweep_fold (now : Int) (l : List (String × StreamConnection))
    (acc : StreamService) : StreamService :=
  l.foldl (fun acc p =>
    if now - p.2.last_heartbeat > acc.connection_timeout then
      acc.disconnect p.1 now
    else acc) acc

/-- One pass of `_heartbeat_loop` over the current registry. -/
def heartbeat_sweep (svc : StreamService) (now : Int) : StreamService :=
  sweep_fold now svc.connections svc

/-! ## Definitions used to state the claims -/

/-- One tracker-facing operation of a turn: recording one thinking step
(via `add_thinking_step` with `auto_flush=False`, as all the
convenience constructors do) or an explicit `_flush_steps`. -/
inductive TrackerOp where
  | record (d : ThinkingStepData)
  | flush
deriving Repr, DecidableEq

/-- Application of one tracker operation for a fixed session id. -/
def apply_tracker_op (session_id : String) (t : ThinkingTracker) : TrackerOp → ThinkingTracker
  | TrackerOp.record d => add_thinking_step t session_id d false
  | TrackerOp.flush => _flush_steps t session_id

/-- Application of a sequence of tracker operations, oldest first. -/
def apply_tracker_ops (session_id : String) (t : ThinkingTracker)
    (ops : List TrackerOp) : ThinkingTracker :=
  ops.foldl (apply_tracker_op session_id) t

/-- The number of step recordings in an operation sequence. -/
def count_records (ops : List TrackerOp) : Nat :=
  (ops.filter (fun o => match o with | TrackerOp.record _ => true | TrackerOp.flush => false)).length

/-- Per-session bookkeeping invariant of the tracker: the session is
active, its buffer key exists, and its persisted rows are numbered
`1..k` in order. -/
def TrackerInv (t : ThinkingTracker) (session_id : String) : Prop :=
  session_id ∈ t.active_sessions ∧
  (dictGet t.step_buffers session_id).isSome = true ∧
  (db_for t session_id).map (fun r => r.step_number)
    = List.range' 1 (db_for t session_id).length

/-- The number of steps recorded so far for a session: persisted rows
plus still-buffered steps. -/
def tracker_total (t : ThinkingTracker) (session_id : String) : Nat :=
  (db_for t session_id).length + (dictGetD t.step_buffers session_id []).length

/-- Whether a serialized SSE event carries an `id:` line. -/
def sse_has_id_line (ls : List SseLine) : Bool :=
  ls.any (fun l => match l with | SseLine.idLine _ => true | _ => false)

/-- A concrete stream message with no event id: the synthetic heartbeat
`get_event_stream` emits on a read timeout (its `data` dict carries the
connection id and a timestamp, and `StreamMessage` leaves `id`, `retry`
and `sequence` at their `None` defaults). -/
def heartbeat_message_example : StreamMessage :=
  { event_type := StreamEventType.heartbeat
    data := [("connection_id", JsonVal.str "c1"),
             ("timestamp", JsonVal.str (isoformat 5))]
    timestamp := 5 }

/-- Every registered queue is within the configured capacity. -/
def queues_bounded (svc : StreamService) : Prop :=
  ∀ k q, dictGet svc.connection_queues k = some q → q.length ≤ svc.max_queue_size

/-- A sequence of `send_message` calls (connection id, message,
timestamp), applied oldest first. -/
def apply_sends (svc : StreamService)
    (sends : List (String × StreamMessage × Int)) : StreamService :=
  sends.foldl (fun acc p => (send_message acc p.1 p.2.1 p.2.2).1) svc

/-- The stream-service operations of the invariant claim:
`create_connection`, `disconnect`, `send_message`, and the
event-stream teardown (whose `finally` block calls `disconnect`). -/
inductive StreamOp where
  | create (connection_id user_id : String) (session_id : Option String) (now : Int)
  | disconnect (connection_id : String) (now : Int)
  | send (connection_id : String) (m : StreamMessage) (now : Int)
  | stream_teardown (connection_id : String) (now : Int)

/-- Application of one stream-service operation. -/
def apply_stream_op (svc : StreamService) : StreamOp → StreamService
  | StreamOp.create cid uid sid now => create_connection svc cid uid sid now
  | StreamOp.disconnect cid now => svc.disconnect cid now
  | StreamOp.send cid m now => (send_message svc cid m now).1
  | StreamOp.stream_teardown cid now => svc.disconnect cid now

/-- Application of a sequence of stream-service operations. -/
def apply_stream_ops (svc : StreamService) (ops : List StreamOp) : StreamService :=
  ops.foldl apply_stream_op svc

/-- The connection registry and the queue registry have the same key
set. -/
def registry_queues_aligned (svc : StreamService) : Prop :=
  ∀ k, (dictGet svc.connections k).isSome = (dictGet svc.connection_queues k).isSome

/-- The optional `id:` part of the SSE line list: one line exactly when
`self.id` is truthy. -/
def sse_id_part (m : StreamMessage) : List SseLine :=
  match m.id with
  | some i => if i ≠ "" then [SseLine.idLine i] else []
  | none => []

/-- The optional `retry:` part of the SSE line list: one line exactly
when `self.retry` is truthy. -/
def sse_retry_part (m : StreamMessage) : List SseLine :=
  match m.retry with
  | some r => if r ≠ 0 then [SseLine.retryLine r] else []
  | none => []

/-! ## Theorems -/

theorem dictGet_dictSet_self {α : Type} (l : List (String × α)) (k : String) (v : α) :
    dictGet (dictSet l k v) k = some v := by
  induction l with
  | nil => simp [dictGet, dictSet]
  | cons hd tl ih =>
    by_cases h : hd.1 = k
    · simp [dictSet, dictGet, h]
    · simp only [dictSet, dictGet]
      rw [if_neg h, dictGet, if_neg h]
      exact ih

theorem dictGet_dictSet_ne {α : Type} (l : List (String × α)) (k k2 : String) (v : α)
    (h : k2 ≠ k) : dictGet (dictSet l k v) k2 = dictGet l k2 := by
  have hkk : ¬ k = k2 := fun h2 => h h2.symm
  induction l with
  | nil => simp [dictGet, dictSet, hkk]
  | cons hd tl ih =>
    by_cases hk : hd.1 = k
    · simp only [dictSet, if_pos hk, dictGet]
      rw [if_neg hkk, if_neg (by rw [hk]; exact hkk)]
    · simp only [dictSet, if_neg hk, dictGet]
      by_cases h2 : hd.1 = k2
      · rw [if_pos h2, if_pos h2]
      · rw [if_neg h2, if_neg h2]
        exact ih

theorem dictGet_dictErase_self {α : Type} (l : List (String × α)) (k : String) :
    dictGet (dictErase l k) k = none := by
  induction l with
  | nil => simp [dictGet, dictErase]
  | cons hd tl ih =>
    by_cases h : hd.1 = k
    · simpa [dictErase, h] using ih
    · simpa [dictErase, h, dictGet] using ih

theorem dictGet_dictErase_ne {α : Type} (l : List (String × α)) (k k2 : String)
    (h : k2 ≠ k) : dictGet (dictErase l k) k2 = dictGet l k2 := by
  have hkk : ¬ k = k2 := fun h2 => h h2.symm
  induction l with
  | nil => simp [dictGet, dictErase]
  | cons hd tl ih =>
    by_cases hk : hd.1 = k
    · simpa [dictErase, hk, dictGet, hkk] using ih
    · by_cases h2 : hd.1 = k2
      · simp [dictErase, hk, dictGet, h2, h]
      · simpa [dictErase, hk, dictGet, h2] using ih

/-- C2: the two conditional routing functions are pure functions of the
state that inspect only `error_count` and the presence of pending tool
calls: `_should_continue_thinking` returns `"error"` when
`error_count > 0` and `"act"` otherwise; `_should_use_tools` returns
`"error"` when `error_count > 0`, else `"use_tools"` when the pending
tool-call list is non-empty, else `"respond"`; and two states agreeing
on `error_count` and on pending-tool-call presence (whatever their
messages, i.e. whatever the LLM produced) route identically. -/
theorem routing_functions_pure (s : AgentState) :
    (_should_continue_thinking s = if s.error_count > 0 then "error" else "act") ∧
    (_should_use_tools s =
      if s.error_count > 0 then "error"
      else if s.tool_calls = [] then "respond" else "use_tools") ∧
    (∀ t : AgentState, s.error_count = t.error_count →
      (s.tool_calls = [] ↔ t.tool_calls = []) →
      _should_continue_thinking s = _should_continue_thinking t ∧
      _should_use_tools s = _should_use_tools t) := by
  refine ⟨rfl, ?_, ?_⟩
  · unfold _should_use_tools
    by_cases h : s.error_count > 0
    · simp [h]
    · by_cases h2 : s.tool_calls = [] <;> simp [h, h2]
  · intro t he ht
    constructor
    · unfold _should_continue_thinking
      rw [he]
    · unfold _should_use_tools
      rw [he]
      by_cases h2 : t.error_count > 0
      · simp [h2]
      · by_cases h3 : s.tool_calls = []
        · simp [h2, h3, ht.mp h3]
        · have h4 : ¬ t.tool_calls = [] := fun hh => h3 (ht.mpr hh)
          simp [h2, h3, h4]

/-- C4: every step-recording operation on a session id with no active
tracked session is a no-op — it returns (instead of raising) and
leaves the whole tracker state, buffers, active-session list and
persisted rows included, unchanged. The five convenience constructors
all defer to `add_thinking_step`, whose first guard returns early. -/
theorem step_recording_noop_without_active_session
    (t : ThinkingTracker) (sid : String) (d : ThinkingStepData) (af : Bool)
    (title content tool_name tool_input : String)
    (reasoning tool_output : Option String)
    (confidence importance : Option ℚ) (metadata : List (String × String))
    (h : sid ∉ t.active_sessions) :
    add_thinking_step t sid d af = t ∧
    add_observation t sid title content confidence metadata = t ∧
    add_analysis t sid title content reasoning confidence metadata = t ∧
    add_decision t sid title content reasoning confidence importance metadata = t ∧
    add_tool_call t sid tool_name tool_input tool_output reasoning confidence metadata = t ∧
    add_conclusion t sid title content reasoning confidence metadata = t := by
  have key : ∀ (d2 : ThinkingStepData) (af2 : Bool), add_thinking_step t sid d2 af2 = t := by
    intro d2 af2
    unfold add_thinking_step
    rw [if_neg h]
  exact ⟨key d af, key _ _, key _ _, key _ _, key _ _, key _ _⟩

/-- Witness for C4 at a concrete input: the empty tracker has no active
session `"s1"`, and recording against it changes nothing. -/
theorem step_recording_noop_without_active_session_witness :
    "s1" ∉ ({} : ThinkingTracker).active_sessions ∧
    (add_thinking_step {} "s1"
        { title := "t", content := "c", phase := ThinkingPhase.analysis
          step_type := ThinkingStepType.observation } true = {} ∧
     add_observation {} "s1" "t" "c" (some 0.5) [] = {} ∧
     add_analysis {} "s1" "t" "c" none (some 0.5) [] = {} ∧
     add_decision {} "s1" "t" "c" none (some 0.5) none [] = {} ∧
     add_tool_call {} "s1" "w" "x" none none (some 0.5) [] = {} ∧
     add_conclusion {} "s1" "t" "c" none (some 0.5) [] = {}) :=
  ⟨by decide,
   step_recording_noop_without_active_session {} "s1"
     { title := "t", content := "c", phase := ThinkingPhase.analysis
       step_type := ThinkingStepType.observation } true
     "t" "c" "w" "x" none none (some 0.5) none [] (by decide)⟩

/-- C9 counterexample: the claim says every serialization carries an
`id:` line, but `to_sse_format` emits one only when `self.id` is
truthy; the synthetic heartbeat message (whose `id` is `None`)
serializes without any `id:` line, as `event:` and `data:` lines
alone. -/
theorem sse_format_id_line_counterexample :
    sse_has_id_line (to_sse_lines heartbeat_message_example) = false ∧
    to_sse_format heartbeat_message_example =
      "event: heartbeat\ndata: \x7b\"connection_id\": \"c1\", \"timestamp\": \"5\", \"sequence\": null\x7d\n\n" := by
  constructor
  · rfl
  · rfl

theorem to_sse_lines_decomposition (m : StreamMessage) :
    to_sse_lines m = sse_id_part m ++ sse_retry_part m ++
      [SseLine.eventLine m.event_type.value, SseLine.dataLine (sse_data_dict m)] := rfl

theorem mem_sse_id_part (m : StreamMessage) (i : String) :
    SseLine.idLine i ∈ sse_id_part m ↔ (m.id = some i ∧ i ≠ "") := by
  cases h : m.id with
  | none => simp [sse_id_part, h]
  | some j =>
    simp only [sse_id_part, h]
    by_cases hj : j = ""
    · rw [if_neg (by simp [hj])]
      simp only [List.not_mem_nil, false_iff]
      rintro ⟨h1, h2⟩
      injection h1 with h3
      exact h2 (h3 ▸ hj)
    · rw [if_pos hj]
      simp only [List.mem_singleton]
      constructor
      · intro he
        injection he with h3
        subst h3
        exact ⟨rfl, hj⟩
      · rintro ⟨h1, h2⟩
        injection h1 with h3
        rw [h3]

theorem mem_sse_retry_part (m : StreamMessage) (r : Int) :
    SseLine.retryLine r ∈ sse_retry_part m ↔ (m.retry = some r ∧ r ≠ 0) := by
  cases h : m.retry with
  | none => simp [sse_retry_part, h]
  | some q =>
    simp only [sse_retry_part, h]
    by_cases hq : q = 0
    · rw [if_neg (by simp [hq])]
      simp only [List.not_mem_nil, false_iff]
      rintro ⟨h1, h2⟩
      injection h1 with h3
      exact h2 (h3 ▸ hq)
    · rw [if_pos hq]
      simp only [List.mem_singleton]
      constructor
      · intro he
        injection he with h3
        subst h3
        exact ⟨rfl, hq⟩
      · rintro ⟨h1, h2⟩
        injection h1 with h3
        rw [h3]

theorem sse_id_part_length (m : StreamMessage) : (sse_id_part m).length ≤ 1 := by
  cases h : m.id with
  | none => simp [sse_id_part, h]
  | some j => by_cases hj : j ≠ "" <;> simp [sse_id_part, h, hj]

theorem sse_retry_part_length (m : StreamMessage) : (sse_retry_part m).length ≤ 1 := by
  cases h : m.retry with
  | none => simp [sse_retry_part, h]
  | some q => by_cases hq : q ≠ 0 <;> simp [sse_retry_part, h, hq]

/-- C9 (amended): the SSE serialization of a `StreamMessage` consists
of an optional `id:` line (present exactly when `id` is set and
non-empty), an optional `retry:` line (present exactly when `retry` is
set and nonzero), an `event: <type>` line and a `data: <json>` line in
that order; the whole event is terminated by a blank line, and the
serialized JSON payload always includes the keys `timestamp` and
`sequence`. -/
theorem to_sse_format_structure (m : StreamMessage) :
    (to_sse_lines m = sse_id_part m ++ sse_retry_part m ++
       [SseLine.eventLine m.event_type.value, SseLine.dataLine (sse_data_dict m)] ∧
     (sse_id_part m).length ≤ 1 ∧ (sse_retry_part m).length ≤ 1 ∧
     (∀ i, SseLine.idLine i ∈ sse_id_part m ↔ (m.id = some i ∧ i ≠ "")) ∧
     (∀ r, SseLine.retryLine r ∈ sse_retry_part m ↔ (m.retry = some r ∧ r ≠ 0))) ∧
    dictGet (sse_data_dict m) "timestamp" = some (JsonVal.str (isoformat m.timestamp)) ∧
    dictGet (sse_data_dict m) "sequence" = some (sequenceJson m.sequence) ∧
    (∃ body, to_sse_format m = body ++ "\n\n") := by
  refine ⟨⟨to_sse_lines_decomposition m, sse_id_part_length m, sse_retry_part_length m,
          mem_sse_id_part m, mem_sse_retry_part m⟩, ?_, ?_, ⟨_, rfl⟩⟩
  · unfold sse_data_dict
    rw [dictGet_dictSet_ne _ _ _ _ (by decide), dictGet_dictSet_self]
  · unfold sse_data_dict
    rw [dictGet_dictSet_self]

/-- C8: when every pending tool call names an unregistered tool, the
use-tools node appends, for each call, a tool-result message whose
content signals that the tool was not found, records an
`add_tool_call` thinking step with confidence 0.0 (after the
pre-execution step with confidence 0.9 the loop always records), does
not raise (the node is a total function whose only exception sources
are caught inside the loop), and leaves the pending tool-call list
empty afterwards. -/
theorem use_tools_unknown_tools
    (tools : List String) (tool_run : String → String → Except String String)
    (s : AgentState)
    (htrack : trackingOn s = true)
    (hunknown : ∀ tc ∈ s.tool_calls, tc.name ∉ tools) :
    (_use_tools_node tools tool_run s).1.messages =
        s.messages ++ s.tool_calls.map (fun tc =>
          Msg.tool ("Tool \x27" ++ tc.name ++ "\x27 not found") tc.id) ∧
    (_use_tools_node tools tool_run s).1.tool_calls = [] ∧
    (_use_tools_node tools tool_run s).2 =
      (s.tool_calls.map (fun tc =>
        [{ tool_name := tc.name, tool_input := tc.args, tool_output := none
           reasoning := some ("开始执行工具 " ++ tc.name), confidence := some 0.9 },
         { tool_name := tc.name, tool_input := tc.args
           tool_output := some ("Tool \x27" ++ tc.name ++ "\x27 not found")
           reasoning := some ("工具 " ++ tc.name ++ " 未找到")
           confidence := some (0.0 : ℚ) }])).flatten := by
  have htrack2 : trackingOn { s with current_thinking_phase := some "execution" } = true := by
    simpa [trackingOn] using htrack
  have hproc : ∀ tc ∈ s.tool_calls,
      process_tool_call tools tool_run
        (trackingOn { s with current_thinking_phase := some "execution" }) tc =
      (Msg.tool ("Tool \x27" ++ tc.name ++ "\x27 not found") tc.id,
       [{ tool_name := tc.name, tool_input := tc.args, tool_output := none
          reasoning := some ("开始执行工具 " ++ tc.name), confidence := some 0.9 },
        { tool_name := tc.name, tool_input := tc.args
          tool_output := some ("Tool \x27" ++ tc.name ++ "\x27 not found")
          reasoning := some ("工具 " ++ tc.name ++ " 未找到")
          confidence := some (0.0 : ℚ) }]) := by
    intro tc htc
    unfold process_tool_call
    rw [htrack2, if_neg (hunknown tc htc)]
    simp
  by_cases hempty : s.tool_calls = []
  · unfold _use_tools_node
    rw [if_pos (by simpa using hempty)]
    simp [hempty]
  · unfold _use_tools_node
    rw [if_neg (by simpa using hempty)]
    refine ⟨?_, rfl, ?_⟩
    · simp only []
      rw [List.map_congr_left hproc]
      simp [List.map_map, Function.comp]
    · simp only []
      rw [List.map_congr_left hproc, List.map_map]
      exact congrArg List.flatten (List.map_congr_left (fun a _ => rfl))

/-- Witness for C8 at a concrete input: one pending call to the
unregistered name "search" with tracking enabled. -/
theorem use_tools_unknown_tools_witness :
    (trackingOn
        { messages := [Msg.human "hi"]
          tool_calls := [{ id := "t1", name := "search", args := "\x7b\x7d" }]
          user_id := some "u1", session_id := some "s1" } = true ∧
     (∀ tc ∈ ({ messages := [Msg.human "hi"]
                tool_calls := [{ id := "t1", name := "search", args := "\x7b\x7d" }]
                user_id := some "u1", session_id := some "s1" } : AgentState).tool_calls,
        tc.name ∉ (["weather"] : List String))) ∧
    ((_use_tools_node ["weather"] (fun _ _ => Except.ok "ok")
        { messages := [Msg.human "hi"]
          tool_calls := [{ id := "t1", name := "search", args := "\x7b\x7d" }]
          user_id := some "u1", session_id := some "s1" }).1.messages =
      [Msg.human "hi"] ++
        [({ id := "t1", name := "search", args := "\x7b\x7d" } : ToolCall)].map (fun tc =>
          Msg.tool ("Tool \x27" ++ tc.name ++ "\x27 not found") tc.id) ∧
     (_use_tools_node ["weather"] (fun _ _ => Except.ok "ok")
        { messages := [Msg.human "hi"]
          tool_calls := [{ id := "t1", name := "search", args := "\x7b\x7d" }]
          user_id := some "u1", session_id := some "s1" }).1.tool_calls = [] ∧
     (_use_tools_node ["weather"] (fun _ _ => Except.ok "ok")
        { messages := [Msg.human "hi"]
          tool_calls := [{ id := "t1", name := "search", args := "\x7b\x7d" }]
          user_id := some "u1", session_id := some "s1" }).2 =
      ([({ id := "t1", name := "search", args := "\x7b\x7d" } : ToolCall)].map (fun tc =>
        [{ tool_name := tc.name, tool_input := tc.args, tool_output := none
           reasoning := some ("开始执行工具 " ++ tc.name), confidence := some 0.9 },
         { tool_name := tc.name, tool_input := tc.args
           tool_output := some ("Tool \x27" ++ tc.name ++ "\x27 not found")
           reasoning := some ("工具 " ++ tc.name ++ " 未找到")
           confidence := some (0.0 : ℚ) }])).flatten) :=
  ⟨⟨by decide, by decide⟩,
   use_tools_unknown_tools ["weather"] (fun _ _ => Except.ok "ok")
     { messages := [Msg.human "hi"]
       tool_calls := [{ id := "t1", name := "search", args := "\x7b\x7d" }]
       user_id := some "u1", session_id := some "s1" }
     (by decide) (by decide)⟩

theorem send_message_preserves_queues_bounded
    (svc : StreamService) (cid : String) (m : StreamMessage) (now : Int)
    (hb : queues_bounded svc) : queues_bounded (send_message svc cid m now).1 := by
  unfold send_message
  cases hc : dictGet svc.connections cid with
  | none => exact hb
  | some connection =>
    cases hq : dictGet svc.connection_queues cid with
    | none => exact hb
    | some queue =>
      simp only [StreamConnection.next_sequence]
      by_cases hlen : queue.length < svc.max_queue_size
      · rw [if_pos hlen]
        intro k q2 hk
        by_cases hkc : k = cid
        · subst hkc
          rw [dictGet_dictSet_self] at hk
          cases hk
          simpa using hlen
        · rw [dictGet_dictSet_ne _ _ _ _ hkc] at hk
          exact hb k q2 hk
      · rw [if_neg hlen]
        cases queue with
        | nil => exact hb
        | cons h0 rest =>
          intro k q2 hk
          by_cases hkc : k = cid
          · subst hkc
            rw [dictGet_dictSet_self] at hk
            cases hk
            have := hb _ _ hq
            simpa using this
          · rw [dictGet_dictSet_ne _ _ _ _ hkc] at hk
            exact hb k q2 hk

theorem apply_sends_preserves_queues_bounded
    (sends : List (String × StreamMessage × Int)) :
    ∀ (svc : StreamService), queues_bounded svc → queues_bounded (apply_sends svc sends) := by
  induction sends with
  | nil => intro svc hb; exact hb
  | cons p rest ih =>
    intro svc hb
    exact ih _ (send_message_preserves_queues_bounded svc p.1 p.2.1 p.2.2 hb)

/-- C5: on a connection whose queue already holds capacity-many
messages, a further `send_message` evicts the oldest pending message
(the queue head) and enqueues in its place the synthesized queue-full
error message, reporting failure; and over any sequence of
`send_message` calls, every queue stays within the configured
capacity. -/
theorem send_message_queue_full_eviction
    (svc : StreamService) (cid : String) (m : StreamMessage) (now : Int)
    (conn : StreamConnection) (q : List StreamMessage)
    (hconn : dictGet svc.connections cid = some conn)
    (hq : dictGet svc.connection_queues cid = some q)
    (hfull : q.length = svc.max_queue_size)
    (hpos : 0 < svc.max_queue_size) :
    dictGet ((send_message svc cid m now).1).connection_queues cid
      = some (q.tail ++ [queue_full_error_message cid now]) ∧
    (q.tail ++ [queue_full_error_message cid now]).length = svc.max_queue_size ∧
    (send_message svc cid m now).2 = SendResult.queue_full ∧
    ∀ (svc2 : StreamService) (sends : List (String × StreamMessage × Int)),
      queues_bounded svc2 → queues_bounded (apply_sends svc2 sends) := by
  cases q with
  | nil => simp at hfull; omega
  | cons h0 rest =>
    have hnotlt : ¬ (h0 :: rest).length < svc.max_queue_size := by
      rw [hfull]; omega
    unfold send_message
    rw [hconn, hq]
    simp only [StreamConnection.next_sequence]
    rw [if_neg hnotlt]
    refine ⟨?_, ?_, rfl, ?_⟩
    · rw [dictGet_dictSet_self]
      rfl
    · simp only [List.tail_cons, List.length_append, List.length_cons]
      simp only [List.length_cons] at hfull
      simp
      omega
    · exact fun svc2 sends hb => apply_sends_preserves_queues_bounded sends svc2 hb

/-- Witness for C5 at a concrete input: a connection "c1" with capacity
2 and a full queue of two messages; the oldest is evicted for the
queue-full error message. -/
theorem send_message_queue_full_eviction_witness :
    (dictGet ({ connections := [("c1", { connection_id := "c1", user_id := "u1" })]
                connection_queues :=
                  [("c1", [{ event_type := StreamEventType.message, data := [] },
                           { event_type := StreamEventType.thinking, data := [] }])]
                max_queue_size := 2 } : StreamService).connections "c1"
        = some { connection_id := "c1", user_id := "u1" } ∧
     dictGet ({ connections := [("c1", { connection_id := "c1", user_id := "u1" })]
                connection_queues :=
                  [("c1", [{ event_type := StreamEventType.message, data := [] },
                           { event_type := StreamEventType.thinking, data := [] }])]
                max_queue_size := 2 } : StreamService).connection_queues "c1"
        = some [{ event_type := StreamEventType.message, data := [] },
                { event_type := StreamEventType.thinking, data := [] }] ∧
     ([({ event_type := StreamEventType.message, data := [] } : StreamMessage),
       { event_type := StreamEventType.thinking, data := [] }]).length
        = ({ connections := [("c1", { connection_id := "c1", user_id := "u1" })]
             connection_queues :=
               [("c1", [{ event_type := StreamEventType.message, data := [] },
                        { event_type := StreamEventType.thinking, data := [] }])]
             max_queue_size := 2 } : StreamService).max_queue_size ∧
     0 < ({ connections := [("c1", { connection_id := "c1", user_id := "u1" })]
            connection_queues :=
              [("c1", [{ event_type := StreamEventType.message, data := [] },
                       { event_type := StreamEventType.thinking, data := [] }])]
            max_queue_size := 2 } : StreamService).max_queue_size) ∧
    (dictGet ((send_message
        { connections := [("c1", { connection_id := "c1", user_id := "u1" })]
          connection_queues :=
            [("c1", [{ event_type := StreamEventType.message, data := [] },
                     { event_type := StreamEventType.thinking, data := [] }])]
          max_queue_size := 2 } "c1" { event_type := StreamEventType.chunk, data := [] }
        7).1).connection_queues "c1"
      = some (([({ event_type := StreamEventType.message, data := [] } : StreamMessage),
                { event_type := StreamEventType.thinking, data := [] }]).tail ++
              [queue_full_error_message "c1" 7]) ∧
     (([({ event_type := StreamEventType.message, data := [] } : StreamMessage),
        { event_type := StreamEventType.thinking, data := [] }]).tail ++
       [queue_full_error_message "c1" 7]).length
      = ({ connections := [("c1", { connection_id := "c1", user_id := "u1" })]
           connection_queues :=
             [("c1", [{ event_type := StreamEventType.message, data := [] },
                      { event_type := StreamEventType.thinking, data := [] }])]
           max_queue_size := 2 } : StreamService).max_queue_size ∧
     (send_message
        { connections := [("c1", { connection_id := "c1", user_id := "u1" })]
          connection_queues :=
            [("c1", [{ event_type := StreamEventType.message, data := [] },
                     { event_type := StreamEventType.thinking, data := [] }])]
          max_queue_size := 2 } "c1" { event_type := StreamEventType.chunk, data := [] }
        7).2 = SendResult.queue_full ∧
     ∀ (svc2 : StreamService) (sends : List (String × StreamMessage × Int)),
       queues_bounded svc2 → queues_bounded (apply_sends svc2 sends)) :=
  ⟨⟨by decide, by decide, by decide, by decide⟩,
   send_message_queue_full_eviction
     { connections := [("c1", { connection_id := "c1", user_id := "u1" })]
       connection_queues :=
         [("c1", [{ event_type := StreamEventType.message, data := [] },
                  { event_type := StreamEventType.thinking, data := [] }])]
       max_queue_size := 2 } "c1" { event_type := StreamEventType.chunk, data := [] } 7
     { connection_id := "c1", user_id := "u1" }
     [{ event_type := StreamEventType.message, data := [] },
      { event_type := StreamEventType.thinking, data := [] }]
     (by decide) (by decide) (by decide) (by decide)⟩

theorem send_message_keys (svc : StreamService) (cid : String) (m : StreamMessage)
    (now : Int) (k : String) :
    (dictGet ((send_message svc cid m now).1).connections k).isSome
      = (dictGet svc.connections k).isSome ∧
    (dictGet ((send_message svc cid m now).1).connection_queues k).isSome
      = (dictGet svc.connection_queues k).isSome := by
  unfold send_message
  cases hc : dictGet svc.connections cid with
  | none => exact ⟨rfl, rfl⟩
  | some connection =>
    cases hq : dictGet svc.connection_queues cid with
    | none => exact ⟨rfl, rfl⟩
    | some queue =>
      simp only [StreamConnection.next_sequence]
      by_cases hkc : k = cid
      · subst hkc
        by_cases hlen : queue.length < svc.max_queue_size
        · rw [if_pos hlen]
          simp [dictGet_dictSet_self, hc, hq]
        · rw [if_neg hlen]
          cases queue with
          | nil => simp [dictGet_dictSet_self, hc, hq]
          | cons h0 rest => simp [dictGet_dictSet_self, hc, hq]
      · by_cases hlen : queue.length < svc.max_queue_size
        · rw [if_pos hlen]
          simp [dictGet_dictSet_ne _ _ _ _ hkc]
        · rw [if_neg hlen]
          cases queue with
          | nil => simp [dictGet_dictSet_ne _ _ _ _ hkc]
          | cons h0 rest => simp [dictGet_dictSet_ne _ _ _ _ hkc]

theorem send_message_connections_ne (svc : StreamService) (cid : String)
    (m : StreamMessage) (now : Int) (k : String) (hk : k ≠ cid) :
    dictGet ((send_message svc cid m now).1).connections k = dictGet svc.connections k := by
  unfold send_message
  cases hc : dictGet svc.connections cid with
  | none => rfl
  | some connection =>
    cases hq : dictGet svc.connection_queues cid with
    | none => rfl
    | some queue =>
      simp only [StreamConnection.next_sequence]
      by_cases hlen : queue.length < svc.max_queue_size
      · rw [if_pos hlen]
        simp [dictGet_dictSet_ne _ _ _ _ hk]
      · rw [if_neg hlen]
        cases queue with
        | nil => simp [dictGet_dictSet_ne _ _ _ _ hk]
        | cons h0 rest => simp [dictGet_dictSet_ne _ _ _ _ hk]

theorem send_message_connection_timeout (svc : StreamService) (cid : String)
    (m : StreamMessage) (now : Int) :
    ((send_message svc cid m now).1).connection_timeout = svc.connection_timeout := by
  unfold send_message
  cases hc : dictGet svc.connections cid with
  | none => rfl
  | some connection =>
    cases hq : dictGet svc.connection_queues cid with
    | none => rfl
    | some queue =>
      simp only [StreamConnection.next_sequence]
      by_cases hlen : queue.length < svc.max_queue_size
      · rw [if_pos hlen]
      · rw [if_neg hlen]
        cases queue with
        | nil => rfl
        | cons h0 rest => rfl

theorem disconnect_lookup_self (svc : StreamService) (cid : String) (now : Int) :
    dictGet (svc.disconnect cid now).connections cid = none := by
  unfold StreamService.disconnect
  by_cases h : (dictGet svc.connections cid).isSome
  · rw [if_pos h]
    exact dictGet_dictErase_self _ _
  · rw [if_neg h]
    simpa using h

theorem disconnect_lookup_ne (svc : StreamService) (cid : String) (now : Int)
    (k : String) (hk : k ≠ cid) :
    dictGet (svc.disconnect cid now).connections k = dictGet svc.connections k := by
  unfold StreamService.disconnect
  by_cases h : (dictGet svc.connections cid).isSome
  · rw [if_pos h]
    rw [dictGet_dictErase_ne _ _ _ hk]
    exact send_message_connections_ne svc cid _ now k hk
  · rw [if_neg h]

theorem disconnect_connection_timeout (svc : StreamService) (cid : String) (now : Int) :
    (svc.disconnect cid now).connection_timeout = svc.connection_timeout := by
  unfold StreamService.disconnect
  by_cases h : (dictGet svc.connections cid).isSome
  · rw [if_pos h]
    exact send_message_connection_timeout svc cid _ now
  · rw [if_neg h]

theorem disconnect_aligned (svc : StreamService) (cid : String) (now : Int)
    (hal : registry_queues_aligned svc) :
    registry_queues_aligned (svc.disconnect cid now) := by
  unfold StreamService.disconnect
  by_cases h : (dictGet svc.connections cid).isSome
  · rw [if_pos h]
    intro k
    by_cases hk : k = cid
    · subst hk
      rw [dictGet_dictErase_self, dictGet_dictErase_self]
      rfl
    · rw [dictGet_dictErase_ne _ _ _ hk, dictGet_dictErase_ne _ _ _ hk]
      rw [(send_message_keys svc cid _ now k).1, (send_message_keys svc cid _ now k).2]
      exact hal k
  · rw [if_neg h]
    exact hal

theorem disconnect_noop (svc : StreamService) (cid : String) (now : Int)
    (h : dictGet svc.connections cid = none) : svc.disconnect cid now = svc := by
  unfold StreamService.disconnect
  rw [if_neg (by simp [h])]

theorem create_connection_aligned (svc : StreamService) (cid uid : String)
    (sid : Option String) (now : Int) (hal : registry_queues_aligned svc) :
    registry_queues_aligned (create_connection svc cid uid sid now) := by
  unfold create_connection
  have hal1 : registry_queues_aligned
      { svc with
        connections := dictSet svc.connections cid
          { connection_id := cid, user_id := uid, session_id := sid
            status := ConnectionStatus.connecting, created_at := now
            last_heartbeat := now, sequence_number := 0 }
        connection_queues := dictSet svc.connection_queues cid [] } := by
    intro k
    by_cases hk : k = cid
    · subst hk
      rw [dictGet_dictSet_self, dictGet_dictSet_self]
      rfl
    · rw [dictGet_dictSet_ne _ _ _ _ hk, dictGet_dictSet_ne _ _ _ _ hk]
      exact hal k
  set svc1 := { svc with
        connections := dictSet svc.connections cid
          { connection_id := cid, user_id := uid, session_id := sid
            status := ConnectionStatus.connecting, created_at := now
            last_heartbeat := now, sequence_number := 0 }
        connection_queues := dictSet svc.connection_queues cid [] } with hsvc1
  have hal2 : registry_queues_aligned (send_message svc1 cid
      { event_type := StreamEventType.connection_status
        data := [("status", JsonVal.str "connected"),
                 ("connection_id", JsonVal.str cid),
                 ("message", JsonVal.str "连接建立成功")]
        id := some cid
        timestamp := now } now).1 := by
    intro k
    rw [(send_message_keys svc1 cid _ now k).1, (send_message_keys svc1 cid _ now k).2]
    exact hal1 k
  cases hc : dictGet (send_message svc1 cid
      { event_type := StreamEventType.connection_status
        data := [("status", JsonVal.str "connected"),
                 ("connection_id", JsonVal.str cid),
                 ("message", JsonVal.str "连接建立成功")]
        id := some cid
        timestamp := now } now).1.connections cid with
  | none => simpa [hc] using hal2
  | some c =>
    simp only [hc]
    intro k
    by_cases hk : k = cid
    · subst hk
      rw [dictGet_dictSet_self]
      have := hal2 k
      rw [hc] at this
      simpa using this.symm ▸ rfl
    · rw [dictGet_dictSet_ne _ _ _ _ hk]
      exact hal2 k

theorem send_message_aligned (svc : StreamService) (cid : String) (m : StreamMessage)
    (now : Int) (hal : registry_queues_aligned svc) :
    registry_queues_aligned (send_message svc cid m now).1 := by
  intro k
  rw [(send_message_keys svc cid m now k).1, (send_message_keys svc cid m now k).2]
  exact hal k

theorem apply_stream_op_aligned (svc : StreamService) (op : StreamOp)
    (hal : registry_queues_aligned svc) :
    registry_queues_aligned (apply_stream_op svc op) := by
  cases op with
  | create cid uid sid now => exact create_connection_aligned svc cid uid sid now hal
  | disconnect cid now => exact disconnect_aligned svc cid now hal
  | send cid m now => exact send_message_aligned svc cid m now hal
  | stream_teardown cid now => exact disconnect_aligned svc cid now hal

/-- C10 (implicit): every `StreamService` operation — `create_connection`,
`disconnect`, `send_message` and the event-stream teardown — preserves
the invariant that the connection registry and the queue registry have
exactly the same key set; under that invariant the missing-queue
failure branch of `send_message` is unreachable for a registered
connection; and `disconnect` on an unknown connection id is a no-op. -/
theorem stream_registry_queue_alignment
    (svc : StreamService) (hal : registry_queues_aligned svc) :
    (∀ ops : List StreamOp, registry_queues_aligned (apply_stream_ops svc ops)) ∧
    (∀ (cid : String) (m : StreamMessage) (now : Int),
      (dictGet svc.connections cid).isSome = true →
      (send_message svc cid m now).2 ≠ SendResult.no_queue) ∧
    (∀ (cid : String) (now : Int),
      dictGet svc.connections cid = none → svc.disconnect cid now = svc) := by
  refine ⟨?_, ?_, ?_⟩
  · intro ops
    induction ops generalizing svc with
    | nil => exact hal
    | cons op rest ih =>
      exact ih (apply_stream_op svc op) (apply_stream_op_aligned svc op hal)
  · intro cid m now hc
    have hq : (dictGet svc.connection_queues cid).isSome = true := by
      rw [← hal cid]
      exact hc
    unfold send_message
    cases h1 : dictGet svc.connections cid with
    | none => rw [h1] at hc; simp at hc
    | some connection =>
      cases h2 : dictGet svc.connection_queues cid with
      | none => rw [h2] at hq; simp at hq
      | some queue =>
        simp only [StreamConnection.next_sequence]
        by_cases hlen : queue.length < svc.max_queue_size
        · rw [if_pos hlen]
          simp
        · rw [if_neg hlen]
          cases queue with
          | nil => simp
          | cons h0 rest => simp
  · exact fun cid now h => disconnect_noop svc cid now h

/-- Witness for C10 at a concrete input: the empty service is aligned,
and the theorem yields the three conclusions for it. -/
theorem stream_registry_queue_alignment_witness :
    registry_queues_aligned ({} : StreamService) ∧
    ((∀ ops : List StreamOp, registry_queues_aligned (apply_stream_ops {} ops)) ∧
     (∀ (cid : String) (m : StreamMessage) (now : Int),
       (dictGet ({} : StreamService).connections cid).isSome = true →
       (send_message {} cid m now).2 ≠ SendResult.no_queue) ∧
     (∀ (cid : String) (now : Int),
       dictGet ({} : StreamService).connections cid = none →
       StreamService.disconnect {} cid now = {})) :=
  ⟨fun _ => rfl, stream_registry_queue_alignment {} (fun _ => rfl)⟩

theorem sweep_fold_preserves_none (now : Int) (cid : String) :
    ∀ (l : List (String × StreamConnection)) (acc : StreamService),
      dictGet acc.connections cid = none →
      dictGet (sweep_fold now l acc).connections cid = none := by
  intro l
  induction l with
  | nil => intro acc h; exact h
  | cons p rest ih =>
    obtain ⟨k, c⟩ := p
    intro acc h
    unfold sweep_fold
    rw [List.foldl_cons]
    refine ih _ ?_
    by_cases hcond : now - c.last_heartbeat > acc.connection_timeout
    · rw [if_pos hcond]
      by_cases hk : k = cid
      · subst hk
        exact disconnect_lookup_self acc k now
      · rw [disconnect_lookup_ne acc k now cid (fun hh => hk hh.symm)]
        exact h
    · rw [if_neg hcond]
      exact h

theorem sweep_fold_connection_timeout (now : Int) :
    ∀ (l : List (String × StreamConnection)) (acc : StreamService),
      (sweep_fold now l acc).connection_timeout = acc.connection_timeout := by
  intro l
  induction l with
  | nil => intro acc; rfl
  | cons p rest ih =>
    obtain ⟨k, c⟩ := p
    intro acc
    unfold sweep_fold
    rw [List.foldl_cons]
    refine Eq.trans (ih _) ?_
    by_cases hcond : now - c.last_heartbeat > acc.connection_timeout
    · rw [if_pos hcond]
      exact disconnect_connection_timeout acc k now
    · rw [if_neg hcond]

theorem sweep_fold_removes (now : Int) (cid : String) (conn : StreamConnection) :
    ∀ (l : List (String × StreamConnection)) (acc : StreamService),
      dictGet l cid = some conn →
      dictGet acc.connections cid = some conn →
      now - conn.last_heartbeat > acc.connection_timeout →
      dictGet (sweep_fold now l acc).connections cid = none := by
  intro l
  induction l with
  | nil => intro acc hl; simp [dictGet] at hl
  | cons p rest ih =>
    obtain ⟨k, c⟩ := p
    intro acc hl hacc hstale
    simp only [dictGet] at hl
    unfold sweep_fold
    rw [List.foldl_cons]
    by_cases hk : k = cid
    · rw [if_pos hk] at hl
      injection hl with hc
      subst hc
      subst hk
      rw [if_pos hstale]
      refine sweep_fold_preserves_none now k rest _ ?_
      exact disconnect_lookup_self acc k now
    · rw [if_neg hk] at hl
      by_cases hcond : now - c.last_heartbeat > acc.connection_timeout
      · rw [if_pos hcond]
        refine ih _ hl ?_ ?_
        · rw [disconnect_lookup_ne acc k now cid (fun hh => hk hh.symm)]
          exact hacc
        · rw [disconnect_connection_timeout acc k now]
          exact hstale
      · rw [if_neg hcond]
        exact ih _ hl hacc hstale

/-- C7: a connection whose last-heartbeat timestamp is older than the
configured connection timeout is force-disconnected (removed from the
registry) by one pass of the background heartbeat sweep; and whenever
the event stream of a connection receives a message from its queue,
the last-heartbeat timestamp of the connection is reset to the current
time. -/
theorem heartbeat_timeout_and_receive_reset
    (svc : StreamService) (now : Int) (cid : String) (conn : StreamConnection)
    (hconn : dictGet svc.connections cid = some conn)
    (hstale : now - conn.last_heartbeat > svc.connection_timeout) :
    dictGet (heartbeat_sweep svc now).connections cid = none ∧
    ∀ (svc2 : StreamService) (cid2 : String) (conn2 : StreamConnection)
      (m : StreamMessage) (rest : List StreamMessage) (now2 : Int),
      dictGet svc2.connections cid2 = some conn2 →
      dictGet svc2.connection_queues cid2 = some (m :: rest) →
      dictGet ((stream_receive svc2 cid2 now2).1).connections cid2 =
        some { conn2 with last_heartbeat := now2 } ∧
      (stream_receive svc2 cid2 now2).2 = some m := by
  constructor
  · exact sweep_fold_removes now cid conn svc.connections svc hconn hconn hstale
  · intro svc2 cid2 conn2 m rest now2 h1 h2
    unfold stream_receive
    simp [h1, h2, dictGet_dictSet_self]

/-- Witness for C7 at a concrete input: a connection whose heartbeat is
301 seconds old against the default 300-second timeout is removed by
the sweep. -/
theorem heartbeat_timeout_and_receive_reset_witness :
    (dictGet ({ connections := [("c1", { connection_id := "c1", user_id := "u1" })]
                connection_queues := [("c1", [])] } : StreamService).connections "c1"
        = some { connection_id := "c1", user_id := "u1" } ∧
     (301 : Int) - ({ connection_id := "c1", user_id := "u1" } : StreamConnection).last_heartbeat
        > ({ connections := [("c1", { connection_id := "c1", user_id := "u1" })]
             connection_queues := [("c1", [])] } : StreamService).connection_timeout) ∧
    (dictGet (heartbeat_sweep
        { connections := [("c1", { connection_id := "c1", user_id := "u1" })]
          connection_queues := [("c1", [])] } 301).connections "c1" = none ∧
     ∀ (svc2 : StreamService) (cid2 : String) (conn2 : StreamConnection)
       (m : StreamMessage) (rest : List StreamMessage) (now2 : Int),
       dictGet svc2.connections cid2 = some conn2 →
       dictGet svc2.connection_queues cid2 = some (m :: rest) →
       dictGet ((stream_receive svc2 cid2 now2).1).connections cid2 =
         some { conn2 with last_heartbeat := now2 } ∧
       (stream_receive svc2 cid2 now2).2 = some m) :=
  ⟨⟨by decide, by decide⟩,
   heartbeat_timeout_and_receive_reset
     { connections := [("c1", { connection_id := "c1", user_id := "u1" })]
       connection_queues := [("c1", [])] } 301 "c1"
     { connection_id := "c1", user_id := "u1" } (by decide) (by decide)⟩

theorem use_tools_node_error_count (tools : List String)
    (tool_run : String → String → Except String String) (s : AgentState) :
    ((_use_tools_node tools tool_run s).1).error_count = s.error_count := by
  unfold _use_tools_node
  by_cases h : s.tool_calls = []
  · rw [if_pos (by simpa using h)]
  · rw [if_neg (by simpa using h)]

theorem use_tools_node_max_errors (tools : List String)
    (tool_run : String → String → Except String String) (s : AgentState) :
    ((_use_tools_node tools tool_run s).1).max_errors = s.max_errors := by
  unfold _use_tools_node
  by_cases h : s.tool_calls = []
  · rw [if_pos (by simpa using h)]
  · rw [if_neg (by simpa using h)]

theorem respond_node_error_count_le (llm : Except Unit String) (s : AgentState) :
    (_respond_node llm s).error_count ≤ s.error_count + 1 := by
  cases llm with
  | ok c =>
    cases h : s.messages.getLast? with
    | none => simp [_respond_node, h]
    | some msg => cases msg <;> (simp [_respond_node, h]; try omega)
  | error e =>
    cases h : s.messages.getLast? with
    | none => simp [_respond_node, h]
    | some msg => cases msg <;> (simp [_respond_node, h]; try omega)

theorem respond_node_max_errors (llm : Except Unit String) (s : AgentState) :
    (_respond_node llm s).max_errors = s.max_errors := by
  cases llm with
  | ok c =>
    cases h : s.messages.getLast? with
    | none => simp [_respond_node, h]
    | some msg => cases msg <;> simp [_respond_node, h]
  | error e =>
    cases h : s.messages.getLast? with
    | none => simp [_respond_node, h]
    | some msg => cases msg <;> simp [_respond_node, h]

/-- C1: a turn that terminates through the respond node ends with
`error_count ≤ max_errors` (3, the default); and whenever the final
`error_count` would exceed `max_errors`, the terminal node is the
error handler, never respond. With a fresh per-turn state
(`error_count = 0`) and every node incrementing the counter at most
once before routing is re-examined, the counter can in fact never
exceed 2 within one turn, so both halves hold for every oracle. -/
theorem turn_error_count_bounded (o : TurnOracle)
    (message user_id session_id : String) (tracking : Bool) :
    ((run_turn o (initial_agent_state message user_id session_id tracking)).2 = GraphNode.respond →
      (run_turn o (initial_agent_state message user_id session_id tracking)).1.error_count ≤
        (run_turn o (initial_agent_state message user_id session_id tracking)).1.max_errors) ∧
    ((run_turn o (initial_agent_state message user_id session_id tracking)).1.max_errors <
        (run_turn o (initial_agent_state message user_id session_id tracking)).1.error_count →
      (run_turn o (initial_agent_state message user_id session_id tracking)).2 = GraphNode.error_handler) := by
  obtain ⟨tl, al, rl, tools, trun⟩ := o
  cases tl with
  | error e =>
    refine ⟨?_, ?_⟩ <;>
      simp [run_turn, _think_node, _should_continue_thinking, initial_agent_state,
        _error_handler_node]
  | ok thought =>
    cases al with
    | error e2 =>
      refine ⟨?_, ?_⟩ <;>
        simp [run_turn, _think_node, _act_node, _should_continue_thinking,
          _should_use_tools, initial_agent_state, _error_handler_node]
    | ok pair =>
      obtain ⟨content, tcs⟩ := pair
      cases tcs with
      | nil =>
        refine ⟨?_, ?_⟩ <;>
          simp [run_turn, _think_node, _act_node, _should_continue_thinking,
            _should_use_tools, initial_agent_state, _respond_node]
      | cons tc0 tcrest =>
        have hne : ¬ ((if (tc0 :: tcrest : List ToolCall) ≠ [] then "use_tools" else "respond") = "error") := by
          simp
        have hut : (if (tc0 :: tcrest : List ToolCall) ≠ [] then "use_tools" else "respond") = "use_tools" := by
          simp
        have hec : (run_turn ⟨Except.ok thought, Except.ok (content, tc0 :: tcrest), rl, tools, trun⟩
            (initial_agent_state message user_id session_id tracking)).1.error_count ≤ 1 := by
          simp only [run_turn, _think_node, _act_node, _should_continue_thinking,
            _should_use_tools, initial_agent_state]
          simp only [List.nil_append, gt_iff_lt, Nat.lt_irrefl, if_false]
          rw [if_neg (show ¬ (("act" : String) = "error") by decide), if_neg hne, if_pos hut]
          refine le_trans (respond_node_error_count_le rl _) ?_
          rw [use_tools_node_error_count]
        have hmax : (run_turn ⟨Except.ok thought, Except.ok (content, tc0 :: tcrest), rl, tools, trun⟩
            (initial_agent_state message user_id session_id tracking)).1.max_errors = 3 := by
          simp only [run_turn, _think_node, _act_node, _should_continue_thinking,
            _should_use_tools, initial_agent_state]
          simp only [List.nil_append, gt_iff_lt, Nat.lt_irrefl, if_false]
          rw [if_neg (show ¬ (("act" : String) = "error") by decide), if_neg hne, if_pos hut]
          rw [respond_node_max_errors, use_tools_node_max_errors]
        refine ⟨fun _ => ?_, fun hcontra => ?_⟩
        · rw [hmax]
          omega
        · rw [hmax] at hcontra
          omega

theorem enumFrom_map_concat {α β : Type} (f : Nat × α → β) (d : α) :
    ∀ (l : List α) (n : Nat),
      ((l ++ [d]).enumFrom n).map f = ((l.enumFrom n).map f) ++ [f (n + l.length, d)] := by
  intro l
  induction l with
  | nil => intro n; simp [List.enumFrom]
  | cons a rest ih =>
    intro n
    simp only [List.cons_append, List.enumFrom, List.map_cons, List.length_cons,
      List.append_eq]
    rw [ih (n + 1)]
    have harith : n + 1 + rest.length = n + (rest.length + 1) := by omega
    rw [harith]

theorem list_enum_eq_enumFrom {α : Type} (l : List α) : l.enum = l.enumFrom 0 := rfl

/-- C6: on an active tracked session, a step appended via
`add_decision` with confidence 0.9 and no flush, then read back via
`get_session_steps` with the buffer included, is the last returned
record and carries phase `planning`, step type `decision`, confidence
0.9 and the buffer-origin marker. -/
theorem add_decision_buffer_roundtrip
    (t : ThinkingTracker) (sid title content : String) (reasoning : Option String)
    (importance : Option ℚ) (metadata : List (String × String))
    (hactive : sid ∈ t.active_sessions)
    (_hbuf : (dictGet t.step_buffers sid).isSome = true) :
    ∃ v : ThinkingStepView,
      (get_session_steps
        (add_decision t sid title content reasoning (some 0.9) importance metadata)
        sid true).getLast? = some v ∧
      v.phase = ThinkingPhase.planning ∧ v.step_type = ThinkingStepType.decision ∧
      v.confidence = some (0.9 : ℚ) ∧ v.from_buffer = true := by
  unfold add_decision add_thinking_step
  rw [if_pos hactive]
  rw [if_neg (by decide : ¬ ((false : Bool) = true))]
  unfold get_session_steps
  simp only [dictGetD, dictGet_dictSet_self, Option.getD_some, Option.isSome_some,
    Bool.and_self, if_true]
  rw [list_enum_eq_enumFrom, enumFrom_map_concat]
  rw [← List.append_assoc]
  rw [List.getLast?_concat]
  exact ⟨_, rfl, rfl, rfl, rfl, rfl⟩

/-- Witness for C6 at a concrete input: a fresh active session "s" with
an empty buffer. -/
theorem add_decision_buffer_roundtrip_witness :
    ("s" ∈ ({ active_sessions := ["s"], step_buffers := [("s", [])] } : ThinkingTracker).active_sessions ∧
     (dictGet ({ active_sessions := ["s"], step_buffers := [("s", [])] } : ThinkingTracker).step_buffers "s").isSome = true) ∧
    (∃ v : ThinkingStepView,
      (get_session_steps
        (add_decision { active_sessions := ["s"], step_buffers := [("s", [])] }
          "s" "决定使用工具" "选择工具" none (some 0.9) none [])
        "s" true).getLast? = some v ∧
      v.phase = ThinkingPhase.planning ∧ v.step_type = ThinkingStepType.decision ∧
      v.confidence = some (0.9 : ℚ) ∧ v.from_buffer = true) :=
  ⟨⟨by decide, by decide⟩,
   add_decision_buffer_roundtrip
     { active_sessions := ["s"], step_buffers := [("s", [])] }
     "s" "决定使用工具" "选择工具" none none [] (by decide) (by decide)⟩

theorem range'_append_one : ∀ (m : Nat) (s n : Nat),
    List.range' s m ++ List.range' (s + m) n = List.range' s (m + n) := by
  intro m
  induction m with
  | zero => intro s n; simp
  | succ m2 ih =>
    intro s n
    rw [List.range'_succ]
    have harith : s + (m2 + 1) = s + 1 + m2 := by omega
    rw [harith]
    rw [List.cons_append, ih (s + 1) n]
    have harith2 : m2 + 1 + n = m2 + n + 1 := by omega
    rw [harith2, List.range'_succ]

theorem enumFrom_row_numbers (sid : String) :
    ∀ (buf : List ThinkingStepData) (n c : Nat),
      (((buf.enumFrom n).map (fun p => row_of_data sid (c + p.1 + 1) p.2)).map
          (fun r => r.step_number))
        = List.range' (c + n + 1) buf.length := by
  intro buf
  induction buf with
  | nil => intro n c; simp [List.enumFrom]
  | cons d rest ih =>
    intro n c
    simp only [List.enumFrom, List.map_cons, List.length_cons]
    rw [ih (n + 1) c]
    rw [List.range'_succ]
    have harith : c + (n + 1) + 1 = c + n + 1 + 1 := by omega
    rw [harith]
    rfl

theorem enumFrom_view_numbers :
    ∀ (buf : List ThinkingStepData) (n s : Nat),
      (((buf.enumFrom n).map (fun p => view_of_buffer (s + p.1) p.2)).map
          (fun v => v.step_number))
        = List.range' (s + n) buf.length := by
  intro buf
  induction buf with
  | nil => intro n s; simp [List.enumFrom]
  | cons d rest ih =>
    intro n s
    simp only [List.enumFrom, List.map_cons, List.length_cons]
    rw [ih (n + 1) s]
    rw [List.range'_succ]
    have harith : s + (n + 1) = s + n + 1 := by omega
    rw [harith]
    rfl

theorem insert_by_step_number_all_lt (r : ThinkingStepRow) (l : List ThinkingStepRow)
    (h : ∀ x ∈ l, r.step_number < x.step_number) :
    insert_by_step_number r l = r :: l := by
  cases l with
  | nil => rfl
  | cons x xs =>
    unfold insert_by_step_number
    rw [if_pos (h x (List.mem_cons_self x xs))]

theorem sort_by_step_number_of_sorted (l : List ThinkingStepRow)
    (h : l.Pairwise (fun a b => a.step_number < b.step_number)) :
    sort_by_step_number l = l := by
  induction l with
  | nil => rfl
  | cons a rest ih =>
    have hrest := (List.pairwise_cons.mp h).2
    have hlt := (List.pairwise_cons.mp h).1
    unfold sort_by_step_number
    rw [List.foldr_cons]
    have : List.foldr insert_by_step_number [] rest = rest := ih hrest
    rw [this]
    exact insert_by_step_number_all_lt a rest hlt

theorem add_thinking_step_inv (t : ThinkingTracker) (sid : String) (d : ThinkingStepData)
    (hinv : TrackerInv t sid) :
    TrackerInv (add_thinking_step t sid d false) sid ∧
    tracker_total (add_thinking_step t sid d false) sid = tracker_total t sid + 1 := by
  obtain ⟨hact, hbuf, hnum⟩ := hinv
  unfold add_thinking_step
  rw [if_pos hact, if_neg (by decide : ¬ ((false : Bool) = true))]
  constructor
  · refine ⟨hact, ?_, ?_⟩
    · rw [dictGet_dictSet_self]
      rfl
    · exact hnum
  · unfold tracker_total
    simp only [db_for, dictGetD, dictGet_dictSet_self, Option.getD_some, List.length_append,
      List.length_cons, List.length_nil]
    omega

theorem flush_steps_inv (t : ThinkingTracker) (sid : String) (hinv : TrackerInv t sid) :
    TrackerInv (_flush_steps t sid) sid ∧
    tracker_total (_flush_steps t sid) sid = tracker_total t sid := by
  obtain ⟨hact, hbuf, hnum⟩ := hinv
  simp only [_flush_steps]
  by_cases hempty : dictGetD t.step_buffers sid [] = []
  · rw [if_pos hempty]
    exact ⟨⟨hact, hbuf, hnum⟩, rfl⟩
  · rw [if_neg hempty]
    have hfilter_new : ∀ (buf : List ThinkingStepData) (c : Nat) (n : Nat),
        ((buf.enumFrom n).map (fun p => row_of_data sid (c + p.1 + 1) p.2)).filter
          (fun r => r.session_id == sid)
        = (buf.enumFrom n).map (fun p => row_of_data sid (c + p.1 + 1) p.2) := by
      intro buf c n
      refine List.filter_eq_self.mpr ?_
      intro r hr
      obtain ⟨p, hp, hpr⟩ := List.mem_map.mp hr
      rw [← hpr]
      exact beq_self_eq_true sid
    have hdb : db_for
        { t with
          db_steps := t.db_steps ++ ((dictGetD t.step_buffers sid []).enum.map (fun p => row_of_data sid ((db_for t sid).length + p.1 + 1) p.2))
          step_buffers := dictSet t.step_buffers sid [] } sid
        = db_for t sid ++
            ((dictGetD t.step_buffers sid []).enum.map
              (fun p => row_of_data sid ((db_for t sid).length + p.1 + 1) p.2)) := by
      simp only [db_for, List.filter_append]
      rw [list_enum_eq_enumFrom, hfilter_new]
    have hnewnum : (((dictGetD t.step_buffers sid []).enum.map
          (fun p => row_of_data sid ((db_for t sid).length + p.1 + 1) p.2)).map
            (fun r => r.step_number))
        = List.range' ((db_for t sid).length + 1) (dictGetD t.step_buffers sid []).length := by
      rw [list_enum_eq_enumFrom, enumFrom_row_numbers]
    have hnewlen : ((dictGetD t.step_buffers sid []).enum.map
          (fun p => row_of_data sid ((db_for t sid).length + p.1 + 1) p.2)).length
        = (dictGetD t.step_buffers sid []).length := by
      simp
    constructor
    · refine ⟨hact, ?_, ?_⟩
      · rw [dictGet_dictSet_self]
        rfl
      · rw [hdb]
        rw [List.map_append, hnum, hnewnum, List.length_append, hnewlen]
        have := range'_append_one (db_for t sid).length 1 (dictGetD t.step_buffers sid []).length
        have harith : 1 + (db_for t sid).length = (db_for t sid).length + 1 := by omega
        rw [harith] at this
        rw [this]
    · unfold tracker_total
      rw [hdb]
      simp only [dictGetD, dictGet_dictSet_self, Option.getD_some, List.length_append,
        List.length_nil, hnewlen]
      simp only [dictGetD] at hnewlen
      omega

theorem apply_tracker_ops_inv (sid : String) :
    ∀ (ops : List TrackerOp) (t : ThinkingTracker), TrackerInv t sid →
      TrackerInv (apply_tracker_ops sid t ops) sid ∧
      tracker_total (apply_tracker_ops sid t ops) sid
        = tracker_total t sid + count_records ops := by
  intro ops
  induction ops with
  | nil =>
    intro t h
    exact ⟨h, by simp [apply_tracker_ops, count_records]⟩
  | cons op rest ih =>
    intro t h
    cases op with
    | record d =>
      have h1 := add_thinking_step_inv t sid d h
      have h2 := ih (add_thinking_step t sid d false) h1.1
      refine ⟨h2.1, ?_⟩
      have hfold : apply_tracker_ops sid t (TrackerOp.record d :: rest)
          = apply_tracker_ops sid (add_thinking_step t sid d false) rest := rfl
      rw [hfold, h2.2, h1.2]
      have hcount : count_records (TrackerOp.record d :: rest) = count_records rest + 1 := by
        simp [count_records]
      rw [hcount]
      omega
    | flush =>
      have h1 := flush_steps_inv t sid h
      have h2 := ih (_flush_steps t sid) h1.1
      refine ⟨h2.1, ?_⟩
      have hfold : apply_tracker_ops sid t (TrackerOp.flush :: rest)
          = apply_tracker_ops sid (_flush_steps t sid) rest := rfl
      rw [hfold, h2.2, h1.2]
      have hcount : count_records (TrackerOp.flush :: rest) = count_records rest := by
        simp [count_records]
      rw [hcount]

theorem get_session_steps_numbers (t : ThinkingTracker) (sid : String)
    (hinv : TrackerInv t sid) :
    (get_session_steps t sid true).map (fun v => v.step_number)
      = List.range' 1 (tracker_total t sid) := by
  obtain ⟨hact, hbuf, hnum⟩ := hinv
  have hsorted : (db_for t sid).Pairwise (fun a b => a.step_number < b.step_number) := by
    refine List.pairwise_map.mp ?_
    rw [hnum]
    exact List.pairwise_lt_range' 1 (db_for t sid).length
  have hsort : sort_by_step_number (db_for t sid) = db_for t sid :=
    sort_by_step_number_of_sorted _ hsorted
  simp only [get_session_steps, hsort, hbuf, Bool.and_true, if_true]
  rw [List.map_append]
  have hbase : ((db_for t sid).map view_of_row).map (fun v => v.step_number)
      = List.range' 1 (db_for t sid).length := by
    rw [List.map_map]
    exact (List.map_congr_left (fun r _ => rfl)).trans hnum
  have hbaselen : ((db_for t sid).map view_of_row).length = (db_for t sid).length :=
    List.length_map _ _
  rw [hbase, hbaselen]
  rw [list_enum_eq_enumFrom, enumFrom_view_numbers]
  unfold tracker_total
  have harith : (db_for t sid).length + 1 + 0 = 1 + (db_for t sid).length := by omega
  rw [harith]
  exact range'_append_one (db_for t sid).length 1 (dictGetD t.step_buffers sid []).length

/-- C3: starting from a freshly tracked session (active, empty buffer,
no persisted rows), any interleaving of N step recordings with flushes
leaves `get_session_steps` (buffer included) returning exactly N
entries whose step numbers are exactly `1..N`, strictly increasing:
each flush numbers its rows contiguously with what is already
persisted. -/
theorem session_steps_contiguous_numbering
    (sid : String) (t : ThinkingTracker) (ops : List TrackerOp)
    (hactive : sid ∈ t.active_sessions)
    (hbuf : dictGet t.step_buffers sid = some [])
    (hdb : db_for t sid = []) :
    (get_session_steps (apply_tracker_ops sid t ops) sid true).map (fun v => v.step_number)
        = List.range' 1 (count_records ops) ∧
    (get_session_steps (apply_tracker_ops sid t ops) sid true).length = count_records ops ∧
    ((get_session_steps (apply_tracker_ops sid t ops) sid true).map
        (fun v => v.step_number)).Pairwise (· < ·) := by
  have hinv : TrackerInv t sid := by
    refine ⟨hactive, by rw [hbuf]; rfl, by rw [hdb]; rfl⟩
  have htot : tracker_total t sid = 0 := by
    unfold tracker_total
    rw [hdb]
    simp [dictGetD, hbuf]
  have h1 := apply_tracker_ops_inv sid ops t hinv
  have h2 := get_session_steps_numbers _ sid h1.1
  rw [h1.2, htot] at h2
  simp only [Nat.zero_add] at h2
  refine ⟨h2, ?_, ?_⟩
  · have := congrArg List.length h2
    simpa using this
  · rw [h2]
    exact List.pairwise_lt_range' 1 (count_records ops)

/-- Witness for C3 at a concrete input: a fresh session "s", two
recordings around an interleaved flush yield step numbers [1, 2]. -/
theorem session_steps_contiguous_numbering_witness :
    ("s" ∈ ({ active_sessions := ["s"], step_buffers := [("s", [])] } : ThinkingTracker).active_sessions ∧
     dictGet ({ active_sessions := ["s"], step_buffers := [("s", [])] } : ThinkingTracker).step_buffers "s" = some [] ∧
     db_for { active_sessions := ["s"], step_buffers := [("s", [])] } "s" = []) ∧
    ((get_session_steps (apply_tracker_ops "s"
        { active_sessions := ["s"], step_buffers := [("s", [])] }
        [TrackerOp.record { title := "a", content := "b", phase := ThinkingPhase.analysis, step_type := ThinkingStepType.observation },
         TrackerOp.flush,
         TrackerOp.record { title := "c", content := "d", phase := ThinkingPhase.planning, step_type := ThinkingStepType.decision }])
        "s" true).map (fun v => v.step_number)
        = List.range' 1 (count_records
            [TrackerOp.record { title := "a", content := "b", phase := ThinkingPhase.analysis, step_type := ThinkingStepType.observation },
             TrackerOp.flush,
             TrackerOp.record { title := "c", content := "d", phase := ThinkingPhase.planning, step_type := ThinkingStepType.decision }]) ∧
     (get_session_steps (apply_tracker_ops "s"
        { active_sessions := ["s"], step_buffers := [("s", [])] }
        [TrackerOp.record { title := "a", content := "b", phase := ThinkingPhase.analysis, step_type := ThinkingStepType.observation },
         TrackerOp.flush,
         TrackerOp.record { title := "c", content := "d", phase := ThinkingPhase.planning, step_type := ThinkingStepType.decision }])
        "s" true).length = count_records
            [TrackerOp.record { title := "a", content := "b", phase := ThinkingPhase.analysis, step_type := ThinkingStepType.observation },
             TrackerOp.flush,
             TrackerOp.record { title := "c", content := "d", phase := ThinkingPhase.planning, step_type := ThinkingStepType.decision }] ∧
     ((get_session_steps (apply_tracker_ops "s"
        { active_sessions := ["s"], step_buffers := [("s", [])] }
        [TrackerOp.record { title := "a", content := "b", phase := ThinkingPhase.analysis, step_type := ThinkingStepType.observation },
         TrackerOp.flush,
         TrackerOp.record { title := "c", content := "d", phase := ThinkingPhase.planning, step_type := ThinkingStepType.decision }])
        "s" true).map (fun v => v.step_number)).Pairwise (· < ·)) :=
  ⟨⟨by decide, by decide, by decide⟩,
   session_steps_contiguous_numbering "s"
     { active_sessions := ["s"], step_buffers := [("s", [])] }
     [TrackerOp.record { title := "a", content := "b", phase := ThinkingPhase.analysis, step_type := ThinkingStepType.observation },
      TrackerOp.flush,
      TrackerOp.record { title := "c", content := "d", phase := ThinkingPhase.planning, step_type := ThinkingStepType.decision }]
     (by decide) (by decide) (by decide)⟩
